import Mathlib

/-!
Shallow embedding of the presentation-generation pipeline core:
`src/core/pipeline.py` (execution engine), `src/core/pipeline_error_handlers.py`
(recovery strategies and coordinating handler) and `src/core/pipeline_factory.py`
(wiring).  Python's mutable heap is threaded explicitly: the run context is the
`PipelineContext` value, and all other mutable state (retry counters, recorded
sleeps, checkpoint files, instrumentation) lives in an explicit world value of
type `σ` threaded through every call.  A Python coroutine that may raise is a
function returning `Except PyErr α × PipelineContext × σ` — mutations performed
before the raise survive, exactly as in Python.
-/

namespace PresentationPipeline

/-- Python runtime values stored in the context and flowing between stages.
`Val.none` is Python `None`; structured values (lists, dicts) are encoded as
`pair`/`nil` trees, with `nil` also standing for the empty dict `\x7b\x7d`. -/
inductive Val where
  | none
  | str (s : String)
  | int (n : Int)
  | bool (b : Bool)
  | pair (a b : Val)
  | nil
deriving DecidableEq, Repr

/-- Python exceptions relevant to the core (`ConnectionError`, `TimeoutError`
are tested for by `FallbackContentStrategy.can_recover`; `AttributeError` is
what `None.lower()` raises; the rest model arbitrary stage errors). -/
inductive PyErr where
  | connectionError (msg : String)
  | timeoutError (msg : String)
  | valueError (msg : String)
  | attributeError (msg : String)
  | runtimeError (msg : String)
deriving DecidableEq, Repr

/-- Python `str(error)` for the checkpoint JSON (`str(None) = "None"`). -/
def pyErrStr : Option PyErr → String
  | Option.none => "None"
  | some (PyErr.connectionError m) => m
  | some (PyErr.timeoutError m) => m
  | some (PyErr.valueError m) => m
  | some (PyErr.attributeError m) => m
  | some (PyErr.runtimeError m) => m

/-- `PipelineContext` from `pipeline.py`: a keyed bag of values plus the
ordered error list.  The Python dict is modelled as an association list with
newest binding first; `get_data` finds the first binding. -/
structure PipelineContext where
  data : List (String × Val)
  errors : List PyErr
deriving DecidableEq, Repr

/-- `PipelineContext()`: fresh empty context. -/
def PipelineContext.new : PipelineContext := ⟨[], []⟩

/-- `set_data(key, value)`: overwrite (newest binding shadows older ones). -/
def PipelineContext.setData (c : PipelineContext) (k : String) (v : Val) : PipelineContext :=
  { c with data := (k, v) :: c.data }

/-- `get_data(key, default)`: first binding for the key, or the default. -/
def PipelineContext.getDataD (c : PipelineContext) (k : String) (d : Val) : Val :=
  (c.data.lookup k).getD d

/-- `get_data(key)` with Python's implicit `default=None`. -/
def PipelineContext.getData (c : PipelineContext) (k : String) : Val :=
  c.getDataD k Val.none

/-- `add_error(error)`: append to the ordered error list. -/
def PipelineContext.addError (c : PipelineContext) (e : PyErr) : PipelineContext :=
  { c with errors := c.errors ++ [e] }

/-- `PipelineStageStatus` from `pipeline.py`. -/
inductive PipelineStageStatus where
  | notStarted
  | inProgress
  | completed
  | failed
  | skipped
deriving DecidableEq, Repr

/-- `StageResult` from `pipeline.py` (`__post_init__` turns a missing metadata
dict into the empty dict, so `metadata` is always a dict). -/
structure StageResult where
  status : PipelineStageStatus
  data : Val
  error : Option PyErr
  metadata : List (String × Val)
deriving DecidableEq, Repr

/-- One checkpoint file written by `AutoSaveStrategy.recover`, with the JSON
object fields of the source (`stage_name`, `input_data`, `partial_results`
— the last one spelled `partResults` here —, `error`, `timestamp`). -/
structure Checkpoint where
  stage_name : Val
  input_data : Val
  partResults : Val
  error : String
  timestamp : String
deriving DecidableEq, Repr

/-- The explicit world: all mutable state outside the context.  `retryCounts`
is `RetryStrategy._retry_counts` (keyed by the `current_stage_name` value);
`sleeps` records each `asyncio.sleep(delay)`; `checkpoints` is the checkpoint
directory as a list of (filename, parsed content); `now` is the frozen clock
behind `datetime.now()`; `attempts`, `log` and `observed` are instrumentation
counters used by mock stages and strategies in the theorems. -/
structure RunState where
  attempts : Nat
  retryCounts : List (Val × Nat)
  sleeps : List ℚ
  checkpoints : List (String × Checkpoint)
  log : List String
  observed : List Val
  seenErrors : List (List PyErr)
  now : Nat
deriving DecidableEq, Repr

/-- The world at process start. -/
def RunState.init : RunState := ⟨0, [], [], [], [], [], [], 0⟩

/-- A stage's `process(data, context)` coroutine: it may mutate the context and
the world and may raise. -/
abbrev StageFn (σ : Type) := Val → PipelineContext → σ → Except PyErr StageResult × PipelineContext × σ

/-- A stage-level error-handler callable, as appended by `add_error_handler`:
`handler(error, context)` returning recovery data or `None`, possibly raising.
The engine passes `result.error` along, so the error argument is optional. -/
abbrev HandlerFn (σ : Type) := Option PyErr → PipelineContext → σ → Except PyErr Val × PipelineContext × σ

/-- An observer callable `observer(stage, result, context)`; it receives the
stage (its name is all the factory observer uses) and may raise. -/
abbrev ObserverFn (σ : Type) := String → StageResult → PipelineContext → σ → Except PyErr Unit × PipelineContext × σ

/-- `PipelineStage` from `pipeline.py`: name, abstract `process`, the ordered
error-handler list, and `_next_stages` (the engine only ever follows the first
entry).  The retained `_last_result` field is write-only inside the engine and
is not modelled. -/
inductive PipelineStage (σ : Type) where
  | mk (name : String) (process : StageFn σ)
      (errorHandlers : List (HandlerFn σ)) (nextStages : List (PipelineStage σ))

def PipelineStage.name : PipelineStage σ → String
  | .mk n _ _ _ => n

def PipelineStage.process : PipelineStage σ → StageFn σ
  | .mk _ p _ _ => p

def PipelineStage.errorHandlers : PipelineStage σ → List (HandlerFn σ)
  | .mk _ _ hs _ => hs

def PipelineStage.nextStages : PipelineStage σ → List (PipelineStage σ)
  | .mk _ _ _ ns => ns

/-- The loop body of `PipelineStage.handle_error`: call each handler in order,
catching (and merely logging) anything a handler raises; return the first
non-`None` recovery value, short-circuiting the rest. -/
def runHandlers (hs : List (HandlerFn σ)) (e : Option PyErr) (ctx : PipelineContext) (s : σ) :
    Val × PipelineContext × σ :=
  match hs with
  | [] => (Val.none, ctx, s)
  | h :: rest =>
    let out := h e ctx s
    match out.1 with
    | Except.ok v =>
        if v = Val.none then runHandlers rest e out.2.1 out.2.2 else (v, out.2.1, out.2.2)
    | Except.error _ => runHandlers rest e out.2.1 out.2.2

/-- `PipelineStage.handle_error(error, context)`. -/
def PipelineStage.handleError (st : PipelineStage σ) (e : Option PyErr) (ctx : PipelineContext)
    (s : σ) : Val × PipelineContext × σ :=
  runHandlers st.errorHandlers e ctx s

/-- `Pipeline._notify_observers`: call each observer in order, catching (and
merely logging) anything an observer raises. -/
def notifyObservers (obs : List (ObserverFn σ)) (stageName : String) (r : StageResult)
    (ctx : PipelineContext) (s : σ) : PipelineContext × σ :=
  match obs with
  | [] => (ctx, s)
  | o :: rest =>
    let out := o stageName r ctx s
    notifyObservers rest stageName r out.2.1 out.2.2

/-- The dispatch step of `Pipeline.execute`: before invoking a stage, store the
current data under `"stage_input_data"` and the stage's name under
`"current_stage_name"`. -/
def dispatchCtx (ctx : PipelineContext) (d : Val) (stageName : String) : PipelineContext :=
  (ctx.setData "stage_input_data" d).setData "current_stage_name" (Val.str stageName)

/-- The `while current_stage is not None` loop of `Pipeline.execute`.  One unit
of fuel is one loop iteration (the Python loop can genuinely run forever, e.g.
with `AutoSaveStrategy` alone on a permanently failing stage); running out of
fuel returns the context as it stands.  Within an iteration: dispatch, run
`process`; on a raise append the error and try `handle_error` (retry on
recovery, stop otherwise); on a normal return notify observers, then on status
`FAILED` try `handle_error` without recording the error (retry on recovery,
stop otherwise); otherwise advance to the first successor. -/
def execLoop (obs : List (ObserverFn σ)) :
    Nat → Option (PipelineStage σ) → Val → PipelineContext → σ → PipelineContext × σ
  | 0, _, _, ctx, s => (ctx, s)
  | _ + 1, Option.none, _, ctx, s => (ctx, s)
  | fuel + 1, some st, d, ctx, s =>
    let ctx1 := dispatchCtx ctx d st.name
    let out := st.process d ctx1 s
    match out.1 with
    | Except.error e =>
        let ctx3 := out.2.1.addError e
        let h := st.handleError (some e) ctx3 out.2.2
        if h.1 = Val.none then h.2
        else execLoop obs fuel (some st) h.1 h.2.1 h.2.2
    | Except.ok result =>
        let nf := notifyObservers obs st.name result out.2.1 out.2.2
        if result.status = PipelineStageStatus.failed then
          let h := st.handleError result.error nf.1 nf.2
          if h.1 = Val.none then h.2
          else execLoop obs fuel (some st) h.1 h.2.1 h.2.2
        else
          execLoop obs fuel st.nextStages.head? result.data nf.1 nf.2

/-- `Pipeline` from `pipeline.py`: the initial stage, the pipeline-owned
context (which `execute` replaces), and the observer list. -/
structure Pipeline (σ : Type) where
  initialStage : PipelineStage σ
  context : PipelineContext
  observers : List (ObserverFn σ)

/-- `Pipeline.execute(initial_data)`: replace `self.context` with a fresh
`PipelineContext()` and run the loop, always returning the context (the
top-level catch-all records any engine-internal fault instead of raising; in
this embedding every fault of a modelled component is already consumed by the
inner handlers, so nothing reaches it). -/
def Pipeline.execute (p : Pipeline σ) (fuel : Nat) (initialData : Val) (s : σ) :
    PipelineContext × σ :=
  execLoop p.observers fuel (some p.initialStage) initialData PipelineContext.new s

/-- `ErrorRecoveryStrategy` from `pipeline_error_handlers.py`: `can_recover`
and `recover`, both able to mutate context and world and to raise. -/
structure ErrorRecoveryStrategy (σ : Type) where
  canRecover : Option PyErr → PipelineContext → σ → Except PyErr Bool × PipelineContext × σ
  recover : Option PyErr → PipelineContext → σ → Except PyErr Val × PipelineContext × σ

/-- `error in context.errors` (`None in errors` is false). -/
def errMem (e : Option PyErr) (errs : List PyErr) : Bool :=
  match e with
  | Option.none => false
  | some pe => errs.contains pe

/-- `context.errors.remove(error)`: remove the first occurrence. -/
def removeErr (e : Option PyErr) (errs : List PyErr) : List PyErr :=
  match e with
  | Option.none => errs
  | some pe => errs.erase pe

/-- The strategy loop of `ErrorHandler.handle_error`, with `acc` the running
`recovery_result`.  For each strategy: if `can_recover`, call `recover`; the
first non-`None` result is kept (and the triggering error removed from
`context.errors` if present), but later strategies are still evaluated; any
exception inside a strategy is caught and logged, and evaluation continues. -/
def handleStrategies (strats : List (ErrorRecoveryStrategy σ)) (e : Option PyErr) (acc : Val)
    (ctx : PipelineContext) (s : σ) : Val × PipelineContext × σ :=
  match strats with
  | [] => (acc, ctx, s)
  | st :: rest =>
    let can := st.canRecover e ctx s
    match can.1 with
    | Except.error _ => handleStrategies rest e acc can.2.1 can.2.2
    | Except.ok false => handleStrategies rest e acc can.2.1 can.2.2
    | Except.ok true =>
      let out := st.recover e can.2.1 can.2.2
      match out.1 with
      | Except.error _ => handleStrategies rest e acc out.2.1 out.2.2
      | Except.ok v =>
          if v ≠ Val.none ∧ acc = Val.none then
            let ctx3 :=
              if errMem e out.2.1.errors then { out.2.1 with errors := removeErr e out.2.1.errors }
              else out.2.1
            handleStrategies rest e v ctx3 out.2.2
          else handleStrategies rest e acc out.2.1 out.2.2

/-- `ErrorHandler` from `pipeline_error_handlers.py`: the ordered strategy
list. -/
structure ErrorHandler (σ : Type) where
  strategies : List (ErrorRecoveryStrategy σ)

/-- `ErrorHandler.handle_error(error, context)`. -/
def ErrorHandler.handleError (h : ErrorHandler σ) (e : Option PyErr) (ctx : PipelineContext)
    (s : σ) : Val × PipelineContext × σ :=
  handleStrategies h.strategies e Val.none ctx s

/-- `RetryStrategy._retry_counts.get(stage_name, 0)`. -/
def lookupCount (counts : List (Val × Nat)) (k : Val) : Nat :=
  (counts.lookup k).getD 0

/-- `self._retry_counts[stage_name] = v` (newest binding shadows). -/
def setCount (counts : List (Val × Nat)) (k : Val) (v : Nat) : List (Val × Nat) :=
  (k, v) :: counts

/-- `RetryStrategy(max_retries, initial_delay)` from
`pipeline_error_handlers.py`.  `can_recover` is true iff the attempt counter
for `current_stage_name` is below `max_retries`.  `recover` increments the
counter, sleeps `initial_delay * 2 ** current_retries`, then requires
`stage_input_data` to be non-`None` (else returns `None`); on success it
records `retry_attempt` and `recovery_strategy` in the context and returns the
input data unchanged. -/
def RetryStrategy (max_retries : Nat) (initial_delay : ℚ) : ErrorRecoveryStrategy RunState where
  canRecover := fun _ ctx s =>
    let stage_name := ctx.getData "current_stage_name"
    let current_retries := lookupCount s.retryCounts stage_name
    (Except.ok (decide (current_retries < max_retries)), ctx, s)
  recover := fun _ ctx s =>
    let stage_name := ctx.getData "current_stage_name"
    let current_retries := lookupCount s.retryCounts stage_name
    let s1 := { s with retryCounts := setCount s.retryCounts stage_name (current_retries + 1) }
    let delay := initial_delay * 2 ^ current_retries
    let s2 := { s1 with sleeps := s1.sleeps ++ [delay] }
    let input_data := ctx.getData "stage_input_data"
    if input_data = Val.none then (Except.ok Val.none, ctx, s2)
    else
      let ctx1 := (ctx.setData "retry_attempt" (Val.int (current_retries + 1))).setData
        "recovery_strategy" (Val.str "RetryStrategy")
      (Except.ok input_data, ctx1, s2)

/-- `isinstance(error, (ConnectionError, TimeoutError))`. -/
def isConnectionOrTimeout : Option PyErr → Bool
  | some (PyErr.connectionError _) => true
  | some (PyErr.timeoutError _) => true
  | _ => false

/-- The fallback template filename `f"{topic.lower().replace(' ', '_')}.json"`. -/
def sanitizeTopic (t : String) : String :=
  (t.toLower.replace " " "_") ++ ".json"

/-- `FallbackContentStrategy(fallback_templates_dir)` from
`pipeline_error_handlers.py`, with the directory modelled as a snapshot of
(filename, parsed JSON content) entries.  `recover` reads `topic` from the
context and calls `.lower()` on it: on a non-string (in particular `None`)
this raises `AttributeError`; otherwise the sanitized file is looked up and
its parsed contents returned, or `None` if absent. -/
def FallbackContentStrategy (fallback_templates : List (String × Val)) :
    ErrorRecoveryStrategy RunState where
  canRecover := fun e ctx s =>
    (Except.ok (isConnectionOrTimeout e
      && decide (ctx.getData "current_stage_name" = Val.str "Content Generation")), ctx, s)
  recover := fun _ ctx s =>
    match ctx.getData "topic" with
    | Val.str topic =>
        match fallback_templates.lookup (sanitizeTopic topic) with
        | some v => (Except.ok v, ctx, s)
        | Option.none => (Except.ok Val.none, ctx, s)
    | _ => (Except.error (PyErr.attributeError "lower"), ctx, s)

/-- `AutoSaveStrategy(checkpoints_dir)` from `pipeline_error_handlers.py`:
`can_recover` is unconditionally true; `recover` writes one timestamped
checkpoint file (stage name, input data, partial results defaulting to the
empty dict, stringified error, timestamp) and returns `stage_input_data`
unchanged. -/
def AutoSaveStrategy : ErrorRecoveryStrategy RunState where
  canRecover := fun _ ctx s => (Except.ok true, ctx, s)
  recover := fun e ctx s =>
    let checkpoint : Checkpoint :=
      { stage_name := ctx.getData "current_stage_name"
        input_data := ctx.getData "stage_input_data"
        partResults := ctx.getDataD "partial_results" Val.nil
        error := pyErrStr e
        timestamp := toString s.now }
    let path := "checkpoint_" ++ toString s.now ++ ".json"
    let s1 := { s with checkpoints := s.checkpoints ++ [(path, checkpoint)] }
    (Except.ok (ctx.getData "stage_input_data"), ctx, s1)

/-- The inner `error_handler` closure built by
`PipelineFactory._add_error_handlers`: it pins `current_stage_name`, runs the
coordinator, stores a non-`None` recovery result under `stage_input_data` —
and then falls off the end, returning `None` (there is no `return result`). -/
def factoryErrorHandler (stageName : String) (h : ErrorHandler RunState) : HandlerFn RunState :=
  fun error ctx s =>
    let ctx1 := ctx.setData "current_stage_name" (Val.str stageName)
    let out := h.handleError error ctx1 s
    let ctx3 := if out.1 ≠ Val.none then out.2.1.setData "stage_input_data" out.1 else out.2.1
    (Except.ok Val.none, ctx3, out.2.2)

/-- The stage-handler wiring demanded by the section 4.4 contract: the handler
attached to the stage simply returns the coordinator's result. -/
def coordinatorHandler (h : ErrorHandler σ) : HandlerFn σ :=
  fun e ctx s =>
    (Except.ok (h.handleError e ctx s).1, (h.handleError e ctx s).2)

/-- `PipelineFactory._apply_configuration`: echo recognized config keys into
the pipeline-owned context (which is the object `execute` later discards). -/
def applyConfiguration (ctx : PipelineContext) (config : List (String × Val)) : PipelineContext :=
  let c1 := match config.lookup "theme" with
    | some v => ctx.setData "theme_name" v
    | Option.none => ctx
  let c2 := match config.lookup "output_format" with
    | some v => c1.setData "output_format" v
    | Option.none => c1
  let c3 := match config.lookup "max_retries" with
    | some v => c2.setData "max_retries" v
    | Option.none => c2
  let c4 := match config.lookup "checkpoints_enabled" with
    | some v => c3.setData "checkpoints_enabled" v
    | Option.none => c3
  match config.lookup "fallback_templates_enabled" with
  | some v => c4.setData "fallback_templates_enabled" v
  | Option.none => c4

/-- Instrumented stage-level handler: records the error list it is shown and
returns `None` (no recovery). -/
def probeHandler : HandlerFn RunState :=
  fun _ ctx s => (Except.ok Val.none, ctx, { s with seenErrors := s.seenErrors ++ [ctx.errors] })

/-- A stage reporting failure through the status channel: `process` returns
normally with status `FAILED` carrying the error. -/
def statusFailStage (e : PyErr) : PipelineStage RunState :=
  PipelineStage.mk "S"
    (fun _ ctx s => (Except.ok ⟨PipelineStageStatus.failed, Val.none, some e, []⟩, ctx, s))
    [probeHandler] []

/-- A stage reporting failure through the exception channel: `process` raises. -/
def throwFailStage (e : PyErr) : PipelineStage RunState :=
  PipelineStage.mk "S" (fun _ ctx s => (Except.error e, ctx, s)) [probeHandler] []

/-- A stage whose `process` raises and which has no error handlers at all. -/
def noHandlerThrowStage (e : PyErr) : PipelineStage RunState :=
  PipelineStage.mk "S" (fun _ ctx s => (Except.error e, ctx, s)) [] []

/-- A permanently failing stage (its `process` counts the invocation and then
raises), wired per the section 4.4 contract to a coordinator whose only
strategy is `RetryStrategy(max_retries)`. -/
def alwaysFailStage (e : PyErr) (max_retries : Nat) (initial_delay : ℚ) :
    PipelineStage RunState :=
  PipelineStage.mk "S"
    (fun _ ctx s => (Except.error e, ctx, { s with attempts := s.attempts + 1 }))
    [coordinatorHandler (ErrorHandler.mk [RetryStrategy max_retries initial_delay])] []

/-- A factory-wired stage as built by `PipelineFactory.create_pipeline`: its
single error handler is the factory closure around a stage-specific
coordinator (here the input-validation one: `RetryStrategy(2)` then
`AutoSaveStrategy`). -/
def factoryWiredStage : PipelineStage RunState :=
  PipelineStage.mk "Input Validation"
    (fun _ ctx s => (Except.error (PyErr.runtimeError "boom"), ctx, s))
    [factoryErrorHandler "Input Validation"
      (ErrorHandler.mk [RetryStrategy 2 1, AutoSaveStrategy])] []

/-- An instrumented pure strategy: fixed `can_recover` verdict, fixed recovery
value, and an invocation log entry appended each time `recover` runs. -/
def specStrategy (nm : String) (can : Bool) (v : Val) : ErrorRecoveryStrategy RunState where
  canRecover := fun _ ctx s => (Except.ok can, ctx, s)
  recover := fun _ ctx s => (Except.ok v, ctx, { s with log := s.log ++ [nm] })

/-- A whole list of instrumented strategies from (name, verdict, value)
descriptions. -/
def specStrategies (l : List (String × Bool × Val)) : List (ErrorRecoveryStrategy RunState) :=
  l.map fun t => specStrategy t.1 t.2.1 t.2.2

/-- First value in a list that is not Python `None`, else `None`. -/
def firstNonNone : List Val → Val
  | [] => Val.none
  | v :: r => if v = Val.none then firstNonNone r else v

/-- A stage reading the configured theme exactly as
`SlideCreationStage.process` does (`context.get_data("theme_name",
"default")`), recording what it observed. -/
def themeProbeStage : PipelineStage RunState :=
  PipelineStage.mk "Slide Creation"
    (fun d ctx s =>
      (Except.ok ⟨PipelineStageStatus.completed, d, Option.none, []⟩, ctx,
        { s with observed := s.observed ++ [ctx.getDataD "theme_name" (Val.str "default")] }))
    [] []

/-- A pipeline whose context was configured by the factory wiring
(`_apply_configuration`) before `execute` is called. -/
def configuredPipeline (config : List (String × Val)) : Pipeline RunState :=
  { initialStage := themeProbeStage
    context := applyConfiguration PipelineContext.new config
    observers := [] }

/-- The context with which the engine re-dispatches the always-failing stage
`"S"` after a successful `RetryStrategy` recovery: dispatch bindings, the
retry bookkeeping bindings, and an error list emptied by the coordinator's
removal. -/
def retryNextCtx (ctx : PipelineContext) (d : Val) (c : Nat) : PipelineContext :=
  ⟨("recovery_strategy", Val.str "RetryStrategy") :: ("retry_attempt", Val.int ((c : Int) + 1)) ::
    ("current_stage_name", Val.str "S") :: ("stage_input_data", d) :: ctx.data, []⟩

/-- The world after one failed attempt plus retry recovery on stage `"S"`:
one more `process` invocation, the retry counter bumped to `c + 1`, and the
backoff sleep recorded. -/
def retryNextState (s : RunState) (d0 : ℚ) (c : Nat) : RunState :=
  { s with attempts := s.attempts + 1,
           retryCounts := setCount s.retryCounts (Val.str "S") (c + 1),
           sleeps := s.sleeps ++ [d0 * 2 ^ c] }

/-! Basic context lemmas. -/

theorem getDataD_setData_self (c : PipelineContext) (k : String) (v d : Val) :
    (c.setData k v).getDataD k d = v := by
  simp [PipelineContext.setData, PipelineContext.getDataD, List.lookup]

theorem getDataD_setData_of_ne (c : PipelineContext) (k k' : String) (v d : Val)
    (h : k' ≠ k) : (c.setData k v).getDataD k' d = c.getDataD k' d := by
  simp only [PipelineContext.setData, PipelineContext.getDataD, List.lookup]
  rw [show (k' == k) = false from beq_eq_false_iff_ne.mpr h]

theorem getData_setData_self (c : PipelineContext) (k : String) (v : Val) :
    (c.setData k v).getData k = v :=
  getDataD_setData_self c k v Val.none

theorem getData_setData_of_ne (c : PipelineContext) (k k' : String) (v : Val)
    (h : k' ≠ k) : (c.setData k v).getData k' = c.getData k' :=
  getDataD_setData_of_ne c k k' v Val.none h

theorem getDataD_addError (c : PipelineContext) (e : PyErr) (k : String) (d : Val) :
    (c.addError e).getDataD k d = c.getDataD k d := rfl

theorem getData_addError (c : PipelineContext) (e : PyErr) (k : String) :
    (c.addError e).getData k = c.getData k := rfl

theorem errors_setData (c : PipelineContext) (k : String) (v : Val) :
    (c.setData k v).errors = c.errors := rfl

theorem errors_addError (c : PipelineContext) (e : PyErr) :
    (c.addError e).errors = c.errors ++ [e] := rfl

theorem errors_dispatchCtx (c : PipelineContext) (d : Val) (n : String) :
    (dispatchCtx c d n).errors = c.errors := rfl

theorem getData_dispatchCtx_stage_name (c : PipelineContext) (d : Val) (n : String) :
    (dispatchCtx c d n).getData "current_stage_name" = Val.str n :=
  getData_setData_self _ _ _

theorem getData_dispatchCtx_input (c : PipelineContext) (d : Val) (n : String) :
    (dispatchCtx c d n).getData "stage_input_data" = d := by
  rw [dispatchCtx, getData_setData_of_ne _ _ _ _ (by decide), getData_setData_self]

theorem lookupCount_setCount_self (cs : List (Val × Nat)) (k : Val) (v : Nat) :
    lookupCount (setCount cs k v) k = v := by
  simp [lookupCount, setCount, List.lookup]

/-- Claim C7: `RetryStrategy.can_recover` is true iff the attempt counter for
the stage named by the context's `current_stage_name` is strictly below
`max_retries` (and mutates nothing); `recover` increments that counter and
suspends for `initial_delay * 2 ^ attemptsSoFar`; it returns the context's
`stage_input_data` unchanged when that is non-`None` — additionally recording
`retry_attempt` and `recovery_strategy` in the context — and returns `None`
(leaving the context untouched) when `stage_input_data` is `None`. -/
theorem c7_retry_strategy (mr : Nat) (d0 : ℚ) (e : Option PyErr) (ctx : PipelineContext)
    (s : RunState) :
    (((RetryStrategy mr d0).canRecover e ctx s).1 = Except.ok true
        ↔ lookupCount s.retryCounts (ctx.getData "current_stage_name") < mr)
    ∧ ((RetryStrategy mr d0).canRecover e ctx s).2 = (ctx, s)
    ∧ ((RetryStrategy mr d0).recover e ctx s).2.2
        = { s with
            retryCounts := setCount s.retryCounts (ctx.getData "current_stage_name")
              (lookupCount s.retryCounts (ctx.getData "current_stage_name") + 1),
            sleeps := s.sleeps
              ++ [d0 * 2 ^ lookupCount s.retryCounts (ctx.getData "current_stage_name")] }
    ∧ lookupCount (((RetryStrategy mr d0).recover e ctx s).2.2).retryCounts
          (ctx.getData "current_stage_name")
        = lookupCount s.retryCounts (ctx.getData "current_stage_name") + 1
    ∧ ((RetryStrategy mr d0).recover e ctx s).1
        = Except.ok (if ctx.getData "stage_input_data" = Val.none then Val.none
            else ctx.getData "stage_input_data")
    ∧ ((RetryStrategy mr d0).recover e ctx s).2.1
        = (if ctx.getData "stage_input_data" = Val.none then ctx
           else (ctx.setData "retry_attempt"
                (Val.int (lookupCount s.retryCounts (ctx.getData "current_stage_name") + 1))).setData
              "recovery_strategy" (Val.str "RetryStrategy")) := by
  refine ⟨?_, rfl, ?_, ?_, ?_, ?_⟩
  · simp [RetryStrategy]
  · by_cases h : ctx.getData "stage_input_data" = Val.none <;> simp [RetryStrategy, h]
  · by_cases h : ctx.getData "stage_input_data" = Val.none <;>
      simp [RetryStrategy, h, lookupCount_setCount_self]
  · by_cases h : ctx.getData "stage_input_data" = Val.none <;> simp [RetryStrategy, h]
  · by_cases h : ctx.getData "stage_input_data" = Val.none <;> simp [RetryStrategy, h]

/-- Claim C8: `AutoSaveStrategy.can_recover` is unconditionally true (and
mutates nothing); its `recover` appends exactly one checkpoint file to the
checkpoint directory, whose content carries the `stage_name` and `input_data`
stored in the context under `current_stage_name` and `stage_input_data` at the
time of failure, and returns the context's `stage_input_data` unchanged,
leaving the context itself untouched. -/
theorem c8_autosave_checkpoint (e : Option PyErr) (ctx : PipelineContext) (s : RunState) :
    AutoSaveStrategy.canRecover e ctx s = (Except.ok true, ctx, s)
    ∧ (AutoSaveStrategy.recover e ctx s).2.2.checkpoints
        = s.checkpoints ++ [("checkpoint_" ++ toString s.now ++ ".json",
            { stage_name := ctx.getData "current_stage_name"
              input_data := ctx.getData "stage_input_data"
              partResults := ctx.getDataD "partial_results" Val.nil
              error := pyErrStr e
              timestamp := toString s.now })]
    ∧ (AutoSaveStrategy.recover e ctx s).2.2.checkpoints.length = s.checkpoints.length + 1
    ∧ (AutoSaveStrategy.recover e ctx s).1 = Except.ok (ctx.getData "stage_input_data")
    ∧ (AutoSaveStrategy.recover e ctx s).2.1 = ctx :=
  ⟨rfl, rfl, by simp [AutoSaveStrategy], rfl, rfl⟩

/-- Claim C10: when the context holds no value under `"topic"`,
`FallbackContentStrategy.recover` raises (`None.lower()` is an
`AttributeError`) instead of returning `None`; invoked through
`ErrorHandler.handle_error` (here under the conditions that make its
`can_recover` true) the exception is caught and the remaining strategies are
evaluated exactly as if the strategy had not helped. -/
theorem c10_fallback_topic_missing (ftl : List (String × Val)) (e : Option PyErr)
    (ctx : PipelineContext) (s : RunState) (rest : List (ErrorRecoveryStrategy RunState))
    (htopic : ctx.getData "topic" = Val.none)
    (hconn : isConnectionOrTimeout e = true)
    (hstage : ctx.getData "current_stage_name" = Val.str "Content Generation") :
    (FallbackContentStrategy ftl).recover e ctx s
        = (Except.error (PyErr.attributeError "lower"), ctx, s)
    ∧ (ErrorHandler.mk (FallbackContentStrategy ftl :: rest)).handleError e ctx s
        = handleStrategies rest e Val.none ctx s := by
  have hrec : (FallbackContentStrategy ftl).recover e ctx s
      = (Except.error (PyErr.attributeError "lower"), ctx, s) := by
    simp only [FallbackContentStrategy, htopic]
  refine ⟨hrec, ?_⟩
  simp [ErrorHandler.handleError, handleStrategies, FallbackContentStrategy, hconn, hstage, htopic]

/-- Witness for C10 at a concrete context with `topic` unset, a
`ConnectionError`, stage `"Content Generation"`, and `AutoSaveStrategy` as the
remaining strategy. -/
theorem c10_fallback_topic_missing_witness :
    ((PipelineContext.new.setData "current_stage_name"
        (Val.str "Content Generation")).getData "topic" = Val.none
      ∧ isConnectionOrTimeout (some (PyErr.connectionError "down")) = true
      ∧ (PipelineContext.new.setData "current_stage_name"
          (Val.str "Content Generation")).getData "current_stage_name"
        = Val.str "Content Generation")
    ∧ ((FallbackContentStrategy []).recover (some (PyErr.connectionError "down"))
          (PipelineContext.new.setData "current_stage_name" (Val.str "Content Generation"))
          RunState.init
        = (Except.error (PyErr.attributeError "lower"),
            PipelineContext.new.setData "current_stage_name" (Val.str "Content Generation"),
            RunState.init)
      ∧ (ErrorHandler.mk (FallbackContentStrategy [] :: [AutoSaveStrategy])).handleError
            (some (PyErr.connectionError "down"))
            (PipelineContext.new.setData "current_stage_name" (Val.str "Content Generation"))
            RunState.init
        = handleStrategies [AutoSaveStrategy] (some (PyErr.connectionError "down")) Val.none
            (PipelineContext.new.setData "current_stage_name" (Val.str "Content Generation"))
            RunState.init) :=
  ⟨⟨by decide, rfl, by decide⟩,
    c10_fallback_topic_missing [] _ _ RunState.init [AutoSaveStrategy]
      (by decide) rfl (by decide)⟩

/-- Every handler list made only of factory-wired handlers yields no recovery
at the stage level. -/
theorem runHandlers_factory_none (hs : List (HandlerFn RunState))
    (hwired : ∀ f ∈ hs, ∃ n h, f = factoryErrorHandler n h) :
    ∀ (e : Option PyErr) (ctx : PipelineContext) (s : RunState),
      (runHandlers hs e ctx s).1 = Val.none := by
  induction hs with
  | nil => intro e ctx s; rfl
  | cons f rest ih =>
    intro e ctx s
    obtain ⟨n, h, rfl⟩ := hwired f (List.mem_cons_self ..)
    simp only [runHandlers, factoryErrorHandler, if_pos rfl]
    exact ih (fun g hg => hwired g (List.mem_cons_of_mem _ hg)) e _ _

/-- Claim C1: a factory-wired stage's error handlers each run the coordinator
internally but return `None` themselves, so `PipelineStage.handle_error` on
such a stage yields no recovery for any error and context; consequently, when
such a stage's `process` raises, the engine terminates the run right there
(returning the context produced by the stage-level handling) instead of
retrying. -/
theorem c1_factory_wired_no_recovery (st : PipelineStage RunState) (e : Option PyErr)
    (ctx : PipelineContext) (s : RunState)
    (hwired : ∀ f ∈ st.errorHandlers, ∃ n h, f = factoryErrorHandler n h) :
    (st.handleError e ctx s).1 = Val.none
    ∧ ∀ (obs : List (ObserverFn RunState)) (fuel : Nat) (d : Val) (c : PipelineContext)
        (w : RunState) (e' : PyErr),
        (st.process d (dispatchCtx c d st.name) w).1 = Except.error e' →
        execLoop obs (fuel + 1) (some st) d c w
          = (st.handleError (some e')
              ((st.process d (dispatchCtx c d st.name) w).2.1.addError e')
              (st.process d (dispatchCtx c d st.name) w).2.2).2 := by
  constructor
  · exact runHandlers_factory_none st.errorHandlers hwired e ctx s
  · intro obs fuel d c w e' hthrow
    have hnone : ∀ (e₀ : Option PyErr) (c₀ : PipelineContext) (w₀ : RunState),
        (st.handleError e₀ c₀ w₀).1 = Val.none :=
      fun e₀ c₀ w₀ => runHandlers_factory_none st.errorHandlers hwired e₀ c₀ w₀
    simp only [execLoop, hthrow, hnone]
    simp

/-- Witness for C1 on the concrete factory-wired input-validation stage. -/
theorem c1_factory_wired_no_recovery_witness :
    ((factoryWiredStage.handleError (some (PyErr.runtimeError "boom")) PipelineContext.new
        RunState.init).1 = Val.none)
    ∧ (execLoop [] 1 (some factoryWiredStage) Val.nil PipelineContext.new RunState.init
        = (factoryWiredStage.handleError (some (PyErr.runtimeError "boom"))
            ((factoryWiredStage.process Val.nil
                (dispatchCtx PipelineContext.new Val.nil factoryWiredStage.name)
                RunState.init).2.1.addError (PyErr.runtimeError "boom"))
            (factoryWiredStage.process Val.nil
              (dispatchCtx PipelineContext.new Val.nil factoryWiredStage.name)
              RunState.init).2.2).2) := by
  have hw : ∀ f ∈ factoryWiredStage.errorHandlers, ∃ n h, f = factoryErrorHandler n h := by
    intro f hf
    refine ⟨"Input Validation", ErrorHandler.mk [RetryStrategy 2 1, AutoSaveStrategy], ?_⟩
    simp only [factoryWiredStage, PipelineStage.errorHandlers, List.mem_singleton] at hf
    exact hf
  exact ⟨(c1_factory_wired_no_recovery factoryWiredStage (some (PyErr.runtimeError "boom"))
            PipelineContext.new RunState.init hw).1,
         (c1_factory_wired_no_recovery factoryWiredStage (some (PyErr.runtimeError "boom"))
            PipelineContext.new RunState.init hw).2 [] 0 Val.nil PipelineContext.new RunState.init
            (PyErr.runtimeError "boom") rfl⟩

/-- Claim C5: the two failure-reporting channels differ in error recording.
With a status-`FAILED` stage, the handler observes `context.errors` exactly as
they were (the engine appends nothing) and the run ends with the errors
unchanged; with a raising stage, the handler observes the thrown error already
appended and the run ends with it recorded. -/
theorem c5_failure_channel_asymmetry (e : PyErr) (d : Val) (ctx : PipelineContext)
    (s : RunState) (fuel : Nat) :
    ((execLoop [] (fuel + 1) (some (statusFailStage e)) d ctx s).2).seenErrors
        = s.seenErrors ++ [ctx.errors]
    ∧ ((execLoop [] (fuel + 1) (some (statusFailStage e)) d ctx s).1).errors = ctx.errors
    ∧ ((execLoop [] (fuel + 1) (some (throwFailStage e)) d ctx s).2).seenErrors
        = s.seenErrors ++ [ctx.errors ++ [e]]
    ∧ ((execLoop [] (fuel + 1) (some (throwFailStage e)) d ctx s).1).errors
        = ctx.errors ++ [e] := by
  refine ⟨?_, ?_, ?_, ?_⟩ <;>
    simp [execLoop, statusFailStage, throwFailStage, probeHandler, notifyObservers,
      PipelineStage.handleError, PipelineStage.name, PipelineStage.process,
      PipelineStage.errorHandlers, runHandlers, dispatchCtx, PipelineContext.setData,
      PipelineContext.addError]

/-- Claim C6: a stage with an empty error-handler list whose `process` raises
terminates the run right there, and when no error had been recorded up to that
point the returned context carries exactly one error, the thrown value. -/
theorem c6_no_handlers_single_error (σ : Type) (obs : List (ObserverFn σ))
    (st : PipelineStage σ) (fuel : Nat) (d : Val) (ctx : PipelineContext) (s : σ) (e : PyErr)
    (hnoh : st.errorHandlers = [])
    (hthrow : (st.process d (dispatchCtx ctx d st.name) s).1 = Except.error e)
    (hclean : ((st.process d (dispatchCtx ctx d st.name) s).2.1).errors = []) :
    execLoop obs (fuel + 1) (some st) d ctx s
        = ((st.process d (dispatchCtx ctx d st.name) s).2.1.addError e,
            (st.process d (dispatchCtx ctx d st.name) s).2.2)
    ∧ ((execLoop obs (fuel + 1) (some st) d ctx s).1).errors = [e] := by
  have h1 : execLoop obs (fuel + 1) (some st) d ctx s
      = ((st.process d (dispatchCtx ctx d st.name) s).2.1.addError e,
          (st.process d (dispatchCtx ctx d st.name) s).2.2) := by
    simp [execLoop, hthrow, PipelineStage.handleError, hnoh, runHandlers]
  exact ⟨h1, by rw [h1]; simp [PipelineContext.addError, hclean]⟩

/-- Witness for C6 on a concrete handler-free raising stage. -/
theorem c6_no_handlers_single_error_witness :
    (noHandlerThrowStage (PyErr.runtimeError "boom")).errorHandlers = []
    ∧ (execLoop [] 1 (some (noHandlerThrowStage (PyErr.runtimeError "boom"))) Val.nil
          PipelineContext.new RunState.init).1.errors = [PyErr.runtimeError "boom"] :=
  ⟨rfl,
    (c6_no_handlers_single_error RunState [] (noHandlerThrowStage (PyErr.runtimeError "boom"))
      0 Val.nil PipelineContext.new RunState.init (PyErr.runtimeError "boom")
      rfl rfl rfl).2⟩

/-- Claim C3: the engine consumes every modelled fault rather than propagating
it.  When `process` raises and the stage-level handling yields no recovery,
`execute`'s loop returns the handler's resulting context (the run's context,
not an exception), and the thrown error was appended to `context.errors`
before the handler ran; faults raised by observers are contained inside
`_notify_observers`, and faults raised by individual error handlers are
contained inside `handle_error`, in both cases continuing with the next
callback. -/
theorem c3_execute_never_propagates (σ : Type) (obs : List (ObserverFn σ))
    (st : PipelineStage σ) (fuel : Nat) (d : Val) (ctx : PipelineContext) (s : σ) (e : PyErr)
    (hthrow : (st.process d (dispatchCtx ctx d st.name) s).1 = Except.error e)
    (hnorec : (st.handleError (some e)
        ((st.process d (dispatchCtx ctx d st.name) s).2.1.addError e)
        (st.process d (dispatchCtx ctx d st.name) s).2.2).1 = Val.none) :
    execLoop obs (fuel + 1) (some st) d ctx s
        = (st.handleError (some e)
            ((st.process d (dispatchCtx ctx d st.name) s).2.1.addError e)
            (st.process d (dispatchCtx ctx d st.name) s).2.2).2
    ∧ e ∈ ((st.process d (dispatchCtx ctx d st.name) s).2.1.addError e).errors
    ∧ (∀ (o : ObserverFn σ) (rest : List (ObserverFn σ)) (nm : String) (r : StageResult)
        (c : PipelineContext) (w : σ),
        notifyObservers (o :: rest) nm r c w
          = notifyObservers rest nm r (o nm r c w).2.1 (o nm r c w).2.2)
    ∧ (∀ (f : HandlerFn σ) (rest : List (HandlerFn σ)) (e₀ : Option PyErr)
        (c : PipelineContext) (w : σ) (pe : PyErr),
        (f e₀ c w).1 = Except.error pe →
        runHandlers (f :: rest) e₀ c w = runHandlers rest e₀ (f e₀ c w).2.1 (f e₀ c w).2.2) := by
  refine ⟨?_, ?_, fun o rest nm r c w => rfl, ?_⟩
  · simp only [execLoop, hthrow, hnorec]
    simp
  · simp [PipelineContext.addError]
  · intro f rest e₀ c w pe hf
    simp only [runHandlers, hf]

/-- Witness for C3 on a concrete raising stage with no handlers. -/
theorem c3_execute_never_propagates_witness :
    (execLoop [] 1 (some (noHandlerThrowStage (PyErr.valueError "bad"))) Val.nil
        PipelineContext.new RunState.init
      = ((noHandlerThrowStage (PyErr.valueError "bad")).handleError
          (some (PyErr.valueError "bad"))
          (((noHandlerThrowStage (PyErr.valueError "bad")).process Val.nil
              (dispatchCtx PipelineContext.new Val.nil
                (noHandlerThrowStage (PyErr.valueError "bad")).name)
              RunState.init).2.1.addError (PyErr.valueError "bad"))
          ((noHandlerThrowStage (PyErr.valueError "bad")).process Val.nil
            (dispatchCtx PipelineContext.new Val.nil
              (noHandlerThrowStage (PyErr.valueError "bad")).name)
            RunState.init).2.2).2)
    ∧ PyErr.valueError "bad"
        ∈ ((((noHandlerThrowStage (PyErr.valueError "bad")).process Val.nil
            (dispatchCtx PipelineContext.new Val.nil
              (noHandlerThrowStage (PyErr.valueError "bad")).name)
            RunState.init).2.1).addError (PyErr.valueError "bad")).errors := by
  have h := c3_execute_never_propagates RunState [] (noHandlerThrowStage (PyErr.valueError "bad"))
    0 Val.nil PipelineContext.new RunState.init (PyErr.valueError "bad") rfl rfl
  exact ⟨h.1, h.2.1⟩

/-- Claim C9 (refuted; the code drops the configuration): the factory's
`_apply_configuration` does store `theme_name` on the pipeline-owned context,
but `execute` replaces that context with a fresh one, so a stage reading
`theme_name` during the run (exactly as `SlideCreationStage.process` does)
observes the default `"default"` instead of the configured `"corporate"`. -/
theorem c9_configuration_lost :
    (configuredPipeline [("theme", Val.str "corporate")]).context.getData "theme_name"
        = Val.str "corporate"
    ∧ (Pipeline.execute (configuredPipeline [("theme", Val.str "corporate")]) 5
          (Val.str "input") RunState.init).2.observed
        = [Val.str "default"]
    ∧ (Pipeline.execute (configuredPipeline [("theme", Val.str "corporate")]) 5
          (Val.str "input") RunState.init).2.observed ≠ [Val.str "corporate"] := by
  refine ⟨by decide, ?_, ?_⟩ <;> decide

/-- Coordinator behavior over any list of instrumented strategies: `recover`
runs on exactly the strategies whose verdict is true (in order, logged),
the result is the running `recovery_result` falling back to the first
non-`None` recovery value, and the triggering error is removed from
`context.errors` exactly when a first non-`None` value arises while the error
is present. -/
theorem handleStrategies_specStrategies (e : Option PyErr) :
    ∀ (l : List (String × Bool × Val)) (acc : Val) (ctx : PipelineContext) (s : RunState),
    (handleStrategies (specStrategies l) e acc ctx s).2.2.log
        = s.log ++ ((l.filter fun t => t.2.1).map fun t => t.1)
    ∧ (handleStrategies (specStrategies l) e acc ctx s).1
        = (if acc = Val.none
           then firstNonNone ((l.filter fun t => t.2.1).map fun t => t.2.2) else acc)
    ∧ (handleStrategies (specStrategies l) e acc ctx s).2.1.errors
        = (if acc = Val.none
              ∧ firstNonNone ((l.filter fun t => t.2.1).map fun t => t.2.2) ≠ Val.none
              ∧ errMem e ctx.errors
           then removeErr e ctx.errors else ctx.errors) := by
  intro l
  induction l with
  | nil =>
    intro acc ctx s
    refine ⟨by simp [specStrategies, handleStrategies], ?_, ?_⟩
    · by_cases h : acc = Val.none <;> simp [specStrategies, handleStrategies, firstNonNone, h]
    · simp [specStrategies, handleStrategies, firstNonNone]
  | cons hd tl ih =>
    obtain ⟨nm, can, v⟩ := hd
    intro acc ctx s
    cases can with
    | false =>
      have hred : handleStrategies (specStrategies ((nm, false, v) :: tl)) e acc ctx s
          = handleStrategies (specStrategies tl) e acc ctx s := by
        simp [specStrategies, handleStrategies, specStrategy]
      refine ⟨?_, ?_, ?_⟩ <;> rw [hred] <;> simp [(ih acc ctx s).1, (ih acc ctx s).2.1,
        (ih acc ctx s).2.2]
    | true =>
      by_cases hcond : v ≠ Val.none ∧ acc = Val.none
      · have hred : handleStrategies (specStrategies ((nm, true, v) :: tl)) e acc ctx s
            = handleStrategies (specStrategies tl) e v
                (if errMem e ctx.errors then { ctx with errors := removeErr e ctx.errors }
                 else ctx)
                { s with log := s.log ++ [nm] } := by
          simp [specStrategies, handleStrategies, specStrategy, hcond]
        obtain ⟨hv, hacc⟩ := hcond
        refine ⟨?_, ?_, ?_⟩ <;> rw [hred]
        · simp [(ih v _ _).1, hv]
        · simp [(ih v _ _).2.1, hv, hacc, firstNonNone]
        · by_cases hm : errMem e ctx.errors <;>
            simp [(ih v _ _).2.2, hv, hacc, firstNonNone, hm]
      · have hred : handleStrategies (specStrategies ((nm, true, v) :: tl)) e acc ctx s
            = handleStrategies (specStrategies tl) e acc ctx
                { s with log := s.log ++ [nm] } := by
          simp only [specStrategies, List.map, handleStrategies, specStrategy]
          rw [if_neg hcond]
        rcases not_and_or.mp hcond with hv | hacc
        · have hv' : v = Val.none := not_not.mp hv
          refine ⟨?_, ?_, ?_⟩ <;> rw [hred]
          · simp [(ih acc ctx _).1]
          · simp [(ih acc ctx _).2.1, hv', firstNonNone]
          · simp [(ih acc ctx _).2.2, hv', firstNonNone]
        · refine ⟨?_, ?_, ?_⟩ <;> rw [hred]
          · simp [(ih acc ctx _).1]
          · simp [(ih acc ctx _).2.1, hacc]
          · simp [(ih acc ctx _).2.2, hacc]

/-- Claim C2: for every ordered strategy list, `ErrorHandler.handle_error`
invokes `recover` on every strategy whose `can_recover` is true — continuing
past an already-obtained recovery — returns the first non-`None` recovery
value (`None` if none), and removes the triggering error from
`context.errors` exactly once iff some strategy returned non-`None`; in
particular with `[S1 (cannot), S2 (recovers with A), S3 (recovers with B)]`
both `S2.recover` and `S3.recover` run and `A` is returned. -/
theorem c2_coordinator_try_all_keep_first (l : List (String × Bool × Val)) (pe : PyErr)
    (ctx : PipelineContext) (s : RunState) (hmem : pe ∈ ctx.errors) :
    ((ErrorHandler.mk (specStrategies l)).handleError (some pe) ctx s).2.2.log
        = s.log ++ ((l.filter fun t => t.2.1).map fun t => t.1)
    ∧ ((ErrorHandler.mk (specStrategies l)).handleError (some pe) ctx s).1
        = firstNonNone ((l.filter fun t => t.2.1).map fun t => t.2.2)
    ∧ ((ErrorHandler.mk (specStrategies l)).handleError (some pe) ctx s).2.1.errors
        = (if firstNonNone ((l.filter fun t => t.2.1).map fun t => t.2.2) = Val.none
           then ctx.errors else ctx.errors.erase pe)
    ∧ ((ErrorHandler.mk (specStrategies
          [("S1", false, Val.none), ("S2", true, Val.str "A"),
            ("S3", true, Val.str "B")])).handleError (some pe) ctx s).1 = Val.str "A"
    ∧ ((ErrorHandler.mk (specStrategies
          [("S1", false, Val.none), ("S2", true, Val.str "A"),
            ("S3", true, Val.str "B")])).handleError (some pe) ctx s).2.2.log
        = s.log ++ ["S2", "S3"] := by
  have hm : errMem (some pe) ctx.errors = true := by
    simpa [errMem] using hmem
  have h := handleStrategies_specStrategies (some pe) l Val.none ctx s
  have h3 := handleStrategies_specStrategies (some pe)
    [("S1", false, Val.none), ("S2", true, Val.str "A"), ("S3", true, Val.str "B")]
    Val.none ctx s
  refine ⟨?_, ?_, ?_, ?_, ?_⟩
  · simpa [ErrorHandler.handleError] using h.1
  · simpa [ErrorHandler.handleError] using h.2.1
  · have he := h.2.2
    by_cases hfn : firstNonNone ((l.filter fun t => t.2.1).map fun t => t.2.2) = Val.none <;>
      simpa [ErrorHandler.handleError, hfn, hm, removeErr] using he
  · simpa [ErrorHandler.handleError, firstNonNone] using h3.2.1
  · simpa [ErrorHandler.handleError] using h3.1

/-- Witness for C2 at a concrete error, a context recording it, and the
`S1`/`S2`/`S3` strategy list. -/
theorem c2_coordinator_try_all_keep_first_witness :
    PyErr.runtimeError "w" ∈ (PipelineContext.mk [] [PyErr.runtimeError "w"]).errors
    ∧ ((ErrorHandler.mk (specStrategies
          [("S1", false, Val.none), ("S2", true, Val.str "A"),
            ("S3", true, Val.str "B")])).handleError (some (PyErr.runtimeError "w"))
          (PipelineContext.mk [] [PyErr.runtimeError "w"]) RunState.init).1 = Val.str "A"
    ∧ ((ErrorHandler.mk (specStrategies
          [("S1", false, Val.none), ("S2", true, Val.str "A"),
            ("S3", true, Val.str "B")])).handleError (some (PyErr.runtimeError "w"))
          (PipelineContext.mk [] [PyErr.runtimeError "w"]) RunState.init).2.2.log
        = RunState.init.log ++ ["S2", "S3"] := by
  have h := c2_coordinator_try_all_keep_first
    [("S1", false, Val.none), ("S2", true, Val.str "A"), ("S3", true, Val.str "B")]
    (PyErr.runtimeError "w") (PipelineContext.mk [] [PyErr.runtimeError "w"]) RunState.init
    (by decide)
  exact ⟨by decide, h.2.2.2.1, h.2.2.2.2⟩

/-- Run invariant for the permanently failing retry-wired stage: entering the
loop with a clean error list and the stage's retry counter at `c`, with
`n - c = j` retries still allowed, the run performs exactly `j + 1` further
`process` attempts and ends with exactly the thrown error recorded. -/
theorem alwaysFail_loop (e : PyErr) (n : Nat) (d0 : ℚ) (d : Val) (hd : d ≠ Val.none) :
    ∀ (j c : Nat), c + j = n →
    ∀ (ctx : PipelineContext) (s : RunState) (k : Nat),
      ctx.errors = [] →
      lookupCount s.retryCounts (Val.str "S") = c →
      (execLoop [] (j + 1 + k) (some (alwaysFailStage e n d0)) d ctx s).1.errors = [e]
      ∧ (execLoop [] (j + 1 + k) (some (alwaysFailStage e n d0)) d ctx s).2.attempts
          = s.attempts + (j + 1) := by
  intro j
  induction j with
  | zero =>
    intro c hc ctx s k hctx hcount
    have hcn : ¬ c < n := by omega
    have hf : 0 + 1 + k = k + 1 := by omega
    rw [hf]
    have hcsn : ((dispatchCtx ctx d "S").addError e).getData "current_stage_name"
        = Val.str "S" := by
      rw [getData_addError, getData_dispatchCtx_stage_name]
    simp only [execLoop, alwaysFailStage, PipelineStage.process, PipelineStage.name,
      PipelineStage.handleError, PipelineStage.errorHandlers, runHandlers, coordinatorHandler,
      ErrorHandler.handleError, handleStrategies, RetryStrategy, hcsn, hcount, hcn,
      decide_eq_true_eq]
    simp [errors_addError, errors_dispatchCtx, hctx, hcn]
  | succ j ih =>
    intro c hc ctx s k hctx hcount
    have hclt : c < n := by omega
    have hcsn : ((dispatchCtx ctx d "S").addError e).getData "current_stage_name"
        = Val.str "S" := by
      rw [getData_addError, getData_dispatchCtx_stage_name]
    have hsid : ((dispatchCtx ctx d "S").addError e).getData "stage_input_data" = d := by
      rw [getData_addError, getData_dispatchCtx_input]
    have hstep : execLoop [] (j + 1 + 1 + k) (some (alwaysFailStage e n d0)) d ctx s
        = execLoop [] (j + 1 + k) (some (alwaysFailStage e n d0)) d
            (retryNextCtx ctx d c) (retryNextState s d0 c) := by
      have harith : j + 1 + 1 + k = (j + 1 + k) + 1 := by omega
      rw [harith]
      simp only [execLoop, alwaysFailStage, PipelineStage.process, PipelineStage.name,
        PipelineStage.handleError, PipelineStage.errorHandlers, runHandlers,
        coordinatorHandler, ErrorHandler.handleError, handleStrategies, RetryStrategy,
        hcsn, hsid, hcount]
      simp [hclt, hd, errMem, removeErr, retryNextCtx, retryNextState, dispatchCtx,
        PipelineContext.setData, PipelineContext.addError, errors_setData, errors_addError,
        errors_dispatchCtx, hctx]
    rw [hstep]
    have hnext := ih (c + 1) (by omega) (retryNextCtx ctx d c) (retryNextState s d0 c) k
      rfl (by simp [retryNextState, lookupCount_setCount_self])
    refine ⟨hnext.1, ?_⟩
    rw [hnext.2]
    simp [retryNextState]
    omega

/-- Claim C4: with a stage whose `process` always raises, wired per the
section 4.4 contract to a coordinator whose only strategy is
`RetryStrategy(max_retries = n)`, `Pipeline.execute` invokes `process` exactly
`n + 1` times (initial attempt plus `n` retries) and then terminates the run
with the stage's error retained in `context.errors`. -/
theorem c4_retry_attempt_bound (n : Nat) (d0 : ℚ) (e : PyErr) (d : Val) (k : Nat)
    (hd : d ≠ Val.none) :
    (Pipeline.execute ⟨alwaysFailStage e n d0, PipelineContext.new, []⟩ (n + 1 + k) d
        RunState.init).2.attempts = n + 1
    ∧ (Pipeline.execute ⟨alwaysFailStage e n d0, PipelineContext.new, []⟩ (n + 1 + k) d
        RunState.init).1.errors = [e] := by
  have h := alwaysFail_loop e n d0 d hd n 0 (by omega) PipelineContext.new RunState.init k
    rfl rfl
  exact ⟨by simpa [Pipeline.execute, RunState.init] using h.2,
    by simpa [Pipeline.execute] using h.1⟩

/-- Witness for C4 with `max_retries = 2` and a concrete input. -/
theorem c4_retry_attempt_bound_witness :
    Val.str "x" ≠ Val.none
    ∧ ((Pipeline.execute ⟨alwaysFailStage (PyErr.runtimeError "boom") 2 1,
            PipelineContext.new, []⟩ (2 + 1 + 0) (Val.str "x") RunState.init).2.attempts = 2 + 1
      ∧ (Pipeline.execute ⟨alwaysFailStage (PyErr.runtimeError "boom") 2 1,
            PipelineContext.new, []⟩ (2 + 1 + 0) (Val.str "x") RunState.init).1.errors
          = [PyErr.runtimeError "boom"]) :=
  ⟨by decide, c4_retry_attempt_bound 2 1 (PyErr.runtimeError "boom") (Val.str "x") 0
    (by decide)⟩

end PresentationPipeline
